import Mathlib

set_option linter.unusedVariables false

/-!
Verification of the learnable fake-quantization kernels in
torch/quantization/_learnable_fake_quantize.py.

Modelling choices:
- Tensor values are rationals (ℚ), the standard exact model of the machine
  reals; the claims under study are decided by exact arithmetic, rounding and
  clamping, not by floating-point spacing.
- torch.round is round-half-to-even (IEEE nearbyint); it is modelled by
  roundHalfEven below.
- Python int(...) and torch .type(torch.int64) truncate toward zero; both are
  modelled by truncTowardZero below.
- A dense tensor is a function Fin n → ℚ.  For the per-channel kernel a tensor
  together with its channel axis ch_axis is taken in the channel-major normal
  form Fin c → Fin m → ℚ (channel index first, all remaining axes flattened),
  which is exactly the normal form the source itself produces with
  _permute_to_axis_zero / reshape(axis_mask) broadcasting.
-/

namespace LearnableFakeQuantize

/-- torch.clamp on rationals: clamp x into the interval lo..hi. -/
def qclamp (x lo hi : ℚ) : ℚ := min (max x lo) hi

/-- torch.round: round to nearest, ties to even (IEEE round-half-even). -/
def roundHalfEven (x : ℚ) : ℤ :=
  let f := ⌊x⌋
  let r := x - (f : ℚ)
  if r < 1/2 then f
  else if 1/2 < r then f + 1
  else if f % 2 = 0 then f else f + 1

/-- Python int(...) on a float, and torch Tensor.type(torch.int64):
truncation toward zero. -/
def truncTowardZero (x : ℚ) : ℤ := if 0 ≤ x then ⌊x⌋ else ⌈x⌉

/-- The effective integer zero-point computed by all four kernel entry points:
per-tensor forward line 141 computes int((zero_point + 0.5).clamp(q_min,
q_max).item()), per-tensor backward line 152 the same, and the per-channel
forward/backward lines 177 and 192 compute ((zero_point + 0.5).clamp(q_min,
q_max)).type(torch.int64). -/
def effectiveZp (zero_point : ℚ) (q_min q_max : ℤ) : ℤ :=
  truncTowardZero (qclamp (zero_point + 1/2) (q_min : ℚ) (q_max : ℚ))

/-- Pointwise body of the source function _quantize (lines 9-15):
xq = torch.round(x * (1.0 / scale) + zp), clamped into q_min..q_max when the
clamp flag is set.  The result stays a float tensor in the source, hence ℚ. -/
def quantizeElem (x scale zp : ℚ) (q_min q_max : ℤ) (clamp : Bool) : ℚ :=
  let xq : ℚ := (roundHalfEven (x * (1 / scale) + zp) : ℤ)
  if clamp then qclamp xq (q_min : ℚ) (q_max : ℚ) else xq

/-- Modelled from the spec: the native affine fake-quantize primitive
(torch.fake_quantize_per_tensor_affine / torch.fake_quantize_per_channel_affine)
is not part of this repository; per the spec's external-interface contract it
computes dequantize(clamp(round(x/scale + zp), qmin, qmax)) elementwise, i.e.
(clamp(round(x/scale + zp), qmin, qmax) - zp) * scale, with the platform
round-to-nearest-even rounding. -/
def fakeQuantizeElem (x scale : ℚ) (zp q_min q_max : ℤ) : ℚ :=
  (qclamp ((roundHalfEven (x / scale + (zp : ℚ)) : ℤ) : ℚ) (q_min : ℚ) (q_max : ℚ)
    - (zp : ℚ)) * scale

/-- Forward of _LearnableFakeQuantizePerTensorOp (lines 137-145): compute the
effective integer zero-point and funnel X through the native per-tensor affine
fake-quantize primitive. -/
def perTensorForward {n : ℕ} (X : Fin n → ℚ) (scale zero_point : ℚ)
    (q_min q_max : ℤ) : Fin n → ℚ :=
  fun i => fakeQuantizeElem (X i) scale (effectiveZp zero_point q_min q_max) q_min q_max

/-- The source function _quantize (lines 9-15) on a whole tensor: it maps
quantizeElem over the elements with the shared scalar scale and zero-point. -/
def quantizeT {n : ℕ} (x : Fin n → ℚ) (scale zp : ℚ) (q_min q_max : ℤ)
    (clamp : Bool) : Fin n → ℚ :=
  fun i => quantizeElem (x i) scale zp q_min q_max clamp

/-- The source function _quantize_vectorized (lines 17-28): scale and zp are
per-channel vectors broadcast along all non-channel axes.  In the
channel-major normal form the broadcast applies the channel-i scalar at every
position (i, j). -/
def quantize_vectorized {c m : ℕ} (x : Fin c → Fin m → ℚ) (scale zp : Fin c → ℚ)
    (q_min q_max : ℤ) (clamp : Bool) : Fin c → Fin m → ℚ :=
  fun i j =>
    let xq : ℚ := (roundHalfEven (x i j * (1 / scale i) + zp i) : ℤ)
    if clamp then qclamp xq (q_min : ℚ) (q_max : ℚ) else xq

/-- The source function _calculate_X_grad_per_tensor (lines 37-53):
mask = (Xq >= quant_min) * (Xq <= quant_max); res is zero outside the mask and
grad_Y inside it.  The scale and zero_point parameters are accepted and unused
exactly as in the source. -/
def calculate_X_grad_per_tensor {n : ℕ} (grad_Y X Xq : Fin n → ℚ)
    (scale zero_point : ℚ) (quant_min quant_max : ℤ) : Fin n → ℚ :=
  fun i => if (quant_min : ℚ) ≤ Xq i ∧ Xq i ≤ (quant_max : ℚ) then grad_Y i else 0

/-- The source function _calculate_X_grad_per_channel (lines 55-68): the
channel loop computes Xq[i] = round(X[i] * (1/scale[i]) + zero_point[i]) on
each channel slice (the permute-to-axis-zero round trip is the identity in the
channel-major normal form), then applies the same mask-and-select as the
per-tensor variant. -/
def calculate_X_grad_per_channel {c m : ℕ} (dY X : Fin c → Fin m → ℚ)
    (scale zero_point : Fin c → ℚ) (quant_min quant_max : ℤ) : Fin c → Fin m → ℚ :=
  let Xq : Fin c → Fin m → ℚ :=
    fun i j => (roundHalfEven (X i j * (1 / scale i) + zero_point i) : ℤ)
  fun i j => if (quant_min : ℚ) ≤ Xq i j ∧ Xq i j ≤ (quant_max : ℚ) then dY i j else 0

/-- indicate_small_scale of _calculate_scale_grad (line 86): the float cast of
the elementwise comparison X_q == q_min. -/
def indicate_small_scale (x_q : ℚ) (q_min : ℤ) : ℚ :=
  if x_q = (q_min : ℚ) then 1 else 0

/-- indicate_big_scale of _calculate_scale_grad (line 87). -/
def indicate_big_scale (x_q : ℚ) (q_max : ℤ) : ℚ :=
  if x_q = (q_max : ℚ) then 1 else 0

/-- indicate_middle_scale of _calculate_scale_grad (lines 88-89):
ones - small - big. -/
def indicate_middle_scale (x_q : ℚ) (q_min q_max : ℤ) : ℚ :=
  1 - indicate_small_scale x_q q_min - indicate_big_scale x_q q_max

/-- indicate_saturate_zp of _calculate_zero_point_grad (line 116):
(X_q == q_min).float() + (X_q == q_max).float(). -/
def indicate_saturate_zp (x_q : ℚ) (q_min q_max : ℤ) : ℚ :=
  (if x_q = (q_min : ℚ) then (1 : ℚ) else 0) + (if x_q = (q_max : ℚ) then (1 : ℚ) else 0)

/-- indicate_unsaturate_zp of _calculate_zero_point_grad (lines 117-118). -/
def indicate_unsaturate_zp (x_q : ℚ) (q_min q_max : ℤ) : ℚ :=
  1 - indicate_saturate_zp x_q q_min q_max

/-- Elementwise body of _calculate_scale_grad (lines 70-99): the indicator
blend of the three regime gradients, multiplied by the masked input gradient.
In the per-channel call the broadcast scale/zero_point supply the channel's
scalar at each position. -/
def calculate_scale_grad_elem (grad_X x x_fq x_q scale zero_point : ℚ)
    (q_min q_max : ℤ) : ℚ :=
  (indicate_small_scale x_q q_min * ((q_min : ℚ) - zero_point)
    + indicate_big_scale x_q q_max * ((q_max : ℚ) - zero_point)
    + indicate_middle_scale x_q q_min q_max * ((x_fq - x) / scale)) * grad_X

/-- The source function _calculate_scale_grad (lines 70-99) on a per-tensor
(shared scalar scale/zero_point) tensor. -/
def calculate_scale_grad {n : ℕ} (grad_X X X_fq X_q : Fin n → ℚ)
    (scale zero_point : ℚ) (q_min q_max : ℤ) : Fin n → ℚ :=
  fun i => calculate_scale_grad_elem (grad_X i) (X i) (X_fq i) (X_q i)
    scale zero_point q_min q_max

/-- Elementwise body of _calculate_zero_point_grad (lines 101-126).  The x and
x_fq parameters are accepted and unused exactly as in the source. -/
def calculate_zero_point_grad_elem (grad_X x x_fq x_q scale zero_point : ℚ)
    (q_min q_max : ℤ) : ℚ :=
  (indicate_saturate_zp x_q q_min q_max * (-scale)
    + indicate_unsaturate_zp x_q q_min q_max * 0) * grad_X

/-- The source function _calculate_zero_point_grad (lines 101-126) on a
per-tensor tensor. -/
def calculate_zero_point_grad {n : ℕ} (grad_X X X_fq X_q : Fin n → ℚ)
    (scale zero_point : ℚ) (q_min q_max : ℤ) : Fin n → ℚ :=
  fun i => calculate_zero_point_grad_elem (grad_X i) (X i) (X_fq i) (X_q i)
    scale zero_point q_min q_max

/-- The triple returned by _LearnableFakeQuantizePerTensorOp.backward (the
None entries for the non-differentiable arguments are dropped).  grad_scale
and grad_zp are 1-element tensors in the source, scalars here. -/
structure PerTensorGrads (n : ℕ) where
  grad_X : Fin n → ℚ
  grad_scale : ℚ
  grad_zp : ℚ

/-- Backward of _LearnableFakeQuantizePerTensorOp (lines 147-166).  The ctx
carries X, scale, zero_point (continuous) from forward plus q_min, q_max, the
forward output X_fq and grad_factor; they are parameters here. -/
def perTensorBackward {n : ℕ} (grad_Y X : Fin n → ℚ) (scale zero_point : ℚ)
    (q_min q_max : ℤ) (X_fq : Fin n → ℚ) (grad_factor : ℚ) : PerTensorGrads n :=
  let zp : ℤ := effectiveZp zero_point q_min q_max
  let X_q := quantizeT X scale (zp : ℚ) q_min q_max false
  let grad_X := calculate_X_grad_per_tensor grad_Y X X_q scale (zp : ℚ) q_min q_max
  let X_qc : Fin n → ℚ := fun i => qclamp (X_q i) (q_min : ℚ) (q_max : ℚ)
  let grad_scale :=
    (∑ i, calculate_scale_grad grad_X X X_fq X_qc scale (zp : ℚ) q_min q_max i)
      * grad_factor
  let grad_zp :=
    (∑ i, calculate_zero_point_grad grad_X X X_fq X_qc scale (zp : ℚ) q_min q_max i)
      * grad_factor
  ⟨grad_X, grad_scale, grad_zp⟩

/-- Forward of _LearnableFakeQuantizePerChannelOp (lines 173-181): the
per-channel effective zero-points are ((zero_point + 0.5).clamp(q_min,
q_max)).type(torch.int64), then X goes through the native per-channel affine
fake-quantize primitive, whose contract is the same elementwise formula with
the channel's scalar parameters. -/
def perChannelForward {c m : ℕ} (X : Fin c → Fin m → ℚ)
    (scale zero_point : Fin c → ℚ) (q_min q_max : ℤ) : Fin c → Fin m → ℚ :=
  fun i j =>
    fakeQuantizeElem (X i j) (scale i) (effectiveZp (zero_point i) q_min q_max)
      q_min q_max

/-- The triple returned by _LearnableFakeQuantizePerChannelOp.backward:
grad_scale and grad_zp hold one value per channel. -/
structure PerChannelGrads (c m : ℕ) where
  grad_X : Fin c → Fin m → ℚ
  grad_scale : Fin c → ℚ
  grad_zp : Fin c → ℚ

/-- Backward of _LearnableFakeQuantizePerChannelOp (lines 183-216): recompute
the per-channel effective zero-points, mask grad_Y through
_calculate_X_grad_per_channel, recompute the clamped codes with
_quantize_vectorized, feed the broadcast parameters through the shared
_calculate_scale_grad / _calculate_zero_point_grad bodies, and sum over every
axis except the channel axis (over j in the channel-major normal form). -/
def perChannelBackward {c m : ℕ} (grad_Y X : Fin c → Fin m → ℚ)
    (scale zero_point : Fin c → ℚ) (q_min q_max : ℤ)
    (X_fq : Fin c → Fin m → ℚ) (grad_factor : ℚ) : PerChannelGrads c m :=
  let zp_vec : Fin c → ℤ := fun i => effectiveZp (zero_point i) q_min q_max
  let grad_X := calculate_X_grad_per_channel grad_Y X scale
    (fun i => (zp_vec i : ℚ)) q_min q_max
  let X_q := quantize_vectorized X scale (fun i => (zp_vec i : ℚ)) q_min q_max true
  let grad_scale : Fin c → ℚ := fun i =>
    (∑ j, calculate_scale_grad_elem (grad_X i j) (X i j) (X_fq i j) (X_q i j)
      (scale i) (zp_vec i : ℚ) q_min q_max) * grad_factor
  let grad_zp : Fin c → ℚ := fun i =>
    (∑ j, calculate_zero_point_grad_elem (grad_X i j) (X i j) (X_fq i j) (X_q i j)
      (scale i) (zp_vec i : ℚ) q_min q_max) * grad_factor
  ⟨grad_X, grad_scale, grad_zp⟩

end LearnableFakeQuantize

namespace LearnableFakeQuantize

-- sanity checks while developing
example : roundHalfEven (8/10 : ℚ) = 1 := by unfold roundHalfEven; norm_num
example : roundHalfEven (12/10 : ℚ) = 1 := by unfold roundHalfEven; norm_num
example : roundHalfEven (5/2 : ℚ) = 2 := by unfold roundHalfEven; norm_num
example : roundHalfEven (-7/5 : ℚ) = -1 := by unfold roundHalfEven; norm_num
example : effectiveZp (-7/5) (-10) 10 = 0 := by
  unfold effectiveZp truncTowardZero qclamp
  norm_num
example : effectiveZp (5/2) 0 10 = 3 := by
  unfold effectiveZp truncTowardZero qclamp
  norm_num
example : perTensorForward (n := 4) ![0, 4/10, 6/10, 1] (1/2) 0 0 3
    = ![0, 1/2, 1/2, 1] := by
  funext i
  fin_cases i <;>
    simp [perTensorForward, fakeQuantizeElem, effectiveZp, truncTowardZero,
      qclamp, roundHalfEven] <;> norm_num [Int.fract]

/-- Rounding an exact integer is the identity, for any tie convention. -/
theorem roundHalfEven_intCast (q : ℤ) : roundHalfEven (q : ℚ) = q := by
  unfold roundHalfEven
  simp

/-- Clamping a value already inside the interval is the identity. -/
theorem qclamp_eq_self {x lo hi : ℚ} (h1 : lo ≤ x) (h2 : x ≤ hi) :
    qclamp x lo hi = x := by
  unfold qclamp
  rw [max_eq_left h1, min_eq_left h2]

/-- C8: for every scale > 0, every effective integer zero-point zp, and every
tensor of integer codes q with q_min <= q i <= q_max, quantizing the
dequantized grid values with _quantize (clamp on) returns the codes unchanged:
the quantize-dequantize round trip is the identity on the integer grid. -/
theorem claim_C8_quantize_dequantize_roundtrip (n : ℕ) (q : Fin n → ℤ)
    (scale : ℚ) (zp q_min q_max : ℤ) (hs : 0 < scale)
    (hq : ∀ i, q_min ≤ q i ∧ q i ≤ q_max) :
    quantizeT (fun i => ((q i : ℚ) - (zp : ℚ)) * scale) scale (zp : ℚ)
        q_min q_max true
      = fun i => (q i : ℚ) := by
  funext i
  unfold quantizeT quantizeElem
  have hs0 : scale ≠ 0 := ne_of_gt hs
  have harg : ((q i : ℚ) - (zp : ℚ)) * scale * (1 / scale) + (zp : ℚ) = (q i : ℚ) := by
    field_simp
  rw [harg, roundHalfEven_intCast]
  simp only [if_pos]
  exact qclamp_eq_self (by exact_mod_cast (hq i).1) (by exact_mod_cast (hq i).2)

/-- Witness for C8 at n = 1, q = [2], scale = 1/2, zp = 1, range 0..3. -/
theorem claim_C8_witness :
    (0 : ℚ) < 1/2
    ∧ quantizeT (n := 1) (fun i => ((![(2 : ℤ)] i : ℚ) - ((1 : ℤ) : ℚ)) * (1/2))
        (1/2) ((1 : ℤ) : ℚ) 0 3 true
      = fun i => (![(2 : ℤ)] i : ℚ) :=
  ⟨by norm_num,
   claim_C8_quantize_dequantize_roundtrip 1 ![(2 : ℤ)] (1/2) 1 0 3 (by norm_num)
     (by intro i; fin_cases i; exact ⟨by norm_num, by norm_num⟩)⟩

/-- C2 corrected: the effective integer zero-point of all four kernel entry
points is truncTowardZero(clamp(zero_point + 1/2, q_min, q_max)).  Whenever
0 <= q_min (so the clamped value is nonnegative and truncation toward zero is
the floor) it equals floor(zero_point + 1/2) -- round half up, not round to
nearest even -- clamped into q_min..q_max. -/
theorem claim_C2_amended_effective_zp (zero_point : ℚ) (q_min q_max : ℤ)
    (h0 : 0 ≤ q_min) (hle : q_min ≤ q_max) :
    effectiveZp zero_point q_min q_max
      = min (max ⌊zero_point + 1/2⌋ q_min) q_max := by
  unfold effectiveZp truncTowardZero qclamp
  set x : ℚ := zero_point + 1/2 with hx
  have hmin : (q_min : ℚ) ≤ min (max x (q_min : ℚ)) (q_max : ℚ) :=
    le_min (le_max_right _ _) (by exact_mod_cast hle)
  have h0q : (0 : ℚ) ≤ min (max x (q_min : ℚ)) (q_max : ℚ) :=
    le_trans (by exact_mod_cast h0) hmin
  rw [if_pos h0q]
  rcases le_total x (q_min : ℚ) with hA | hB
  · rw [max_eq_right hA, min_eq_left (by exact_mod_cast hle : (q_min : ℚ) ≤ (q_max : ℚ)),
      Int.floor_intCast]
    have hfl : ⌊x⌋ ≤ q_min := by
      have := Int.floor_le_floor hA
      rwa [Int.floor_intCast] at this
    rw [max_eq_right hfl, min_eq_left hle]
  · rw [max_eq_left hB]
    have hql : q_min ≤ ⌊x⌋ := by
      rw [Int.le_floor]; exact hB
    rcases le_total x (q_max : ℚ) with hC | hD
    · rw [min_eq_left hC]
      have hfu : ⌊x⌋ ≤ q_max := by
        have := Int.floor_le_floor hC
        rwa [Int.floor_intCast] at this
      rw [max_eq_left hql, min_eq_left hfu]
    · rw [min_eq_right hD, Int.floor_intCast]
      have hqm : q_max ≤ ⌊x⌋ := by
        rw [Int.le_floor]; exact hD
      rw [max_eq_left (le_trans hle hqm), min_eq_right hqm]

/-- Witness for the amended C2 at zero_point = 5/2, range 0..10: the kernels
use 3 (round half up), and the theorem's right-hand side evaluates to 3. -/
theorem claim_C2_amended_witness :
    (0 : ℤ) ≤ 0 ∧ (0 : ℤ) ≤ 10
    ∧ effectiveZp (5/2) 0 10 = min (max ⌊(5/2 : ℚ) + 1/2⌋ 0) 10 :=
  ⟨le_refl 0, by norm_num, claim_C2_amended_effective_zp (5/2) 0 10 (le_refl 0) (by norm_num)⟩

/-- Counterexample for C2 as stated: at zero_point = -1.4 with range -10..10
the kernels compute effective zero-point 0 (the clamped value -0.9 is
truncated toward zero), while round-to-nearest-then-clamp gives -1 (no tie is
involved, so every round-to-nearest convention agrees).  The difference is
observable in the per-tensor forward output: at X = [-10.6], scale = 1 the
kernel returns -10, while the formula with zero-point -1 returns -9. -/
theorem claim_C2_counterexample :
    effectiveZp (-7/5) (-10) 10 = 0
    ∧ min (max (roundHalfEven ((-7/5 : ℚ))) (-10)) 10 = -1
    ∧ (0 : ℤ) ≠ -1
    ∧ perTensorForward (n := 1) ![-53/5] 1 (-7/5) (-10) 10 0 = -10
    ∧ (qclamp ((roundHalfEven ((-53/5 : ℚ) / 1 + ((-1 : ℤ) : ℚ)) : ℤ) : ℚ)
        ((-10 : ℤ) : ℚ) ((10 : ℤ) : ℚ) - ((-1 : ℤ) : ℚ)) * 1 = -9
    ∧ (-10 : ℚ) ≠ -9 := by
  refine ⟨?_, ?_, by decide, ?_, ?_, by norm_num⟩
  · unfold effectiveZp truncTowardZero qclamp
    norm_num
  · unfold roundHalfEven
    norm_num
  · simp [perTensorForward, fakeQuantizeElem, effectiveZp, truncTowardZero,
      qclamp, roundHalfEven]
    norm_num [Int.fract]
    have h : ⌈(-(9/10) : ℚ)⌉ = 0 := by norm_num
    rw [h]
    norm_num
  · unfold roundHalfEven qclamp
    norm_num

/-- C1: for every tensor X, scale > 0, continuous zero_point whose effective
integer value lies in q_min..q_max, and integers q_min < q_max, the per-tensor
forward output is (clamp(round(X/scale + zp), q_min, q_max) - zp) * scale
elementwise, where zp is the effective integer zero-point; and on
X = [0, 0.4, 0.6, 1] with scale = 1/2, zero_point = 0, range 0..3 the output
is [0, 1/2, 1/2, 1]. -/
theorem claim_C1_per_tensor_forward_formula :
    (∀ (n : ℕ) (X : Fin n → ℚ) (scale zero_point : ℚ) (q_min q_max : ℤ),
      0 < scale → q_min < q_max →
      q_min ≤ effectiveZp zero_point q_min q_max →
      effectiveZp zero_point q_min q_max ≤ q_max →
      ∀ i, perTensorForward X scale zero_point q_min q_max i
        = (qclamp ((roundHalfEven (X i / scale
              + (effectiveZp zero_point q_min q_max : ℚ)) : ℤ) : ℚ)
            (q_min : ℚ) (q_max : ℚ)
           - (effectiveZp zero_point q_min q_max : ℚ)) * scale)
    ∧ perTensorForward (n := 4) ![0, 4/10, 6/10, 1] (1/2) 0 0 3
        = ![0, 1/2, 1/2, 1] := by
  constructor
  · intro n X scale zero_point q_min q_max hs hlt h1 h2 i
    rfl
  · funext i
    fin_cases i <;>
      simp [perTensorForward, fakeQuantizeElem, effectiveZp, truncTowardZero,
        qclamp, roundHalfEven] <;> norm_num [Int.fract]

/-- Witness for C1 at X = [1], scale = 1, zero_point = 0, range 0..3. -/
theorem claim_C1_witness :
    (0 : ℚ) < 1 ∧ (0 : ℤ) < 3
    ∧ (0 : ℤ) ≤ effectiveZp 0 0 3 ∧ effectiveZp 0 0 3 ≤ 3
    ∧ perTensorForward (n := 1) ![1] 1 0 0 3 0
      = (qclamp ((roundHalfEven ((![1] : Fin 1 → ℚ) 0 / 1
            + (effectiveZp 0 0 3 : ℚ)) : ℤ) : ℚ) ((0 : ℤ) : ℚ) ((3 : ℤ) : ℚ)
         - (effectiveZp 0 0 3 : ℚ)) * 1 :=
  ⟨by norm_num, by norm_num,
   by unfold effectiveZp truncTowardZero qclamp; norm_num,
   by unfold effectiveZp truncTowardZero qclamp; norm_num,
   claim_C1_per_tensor_forward_formula.1 1 ![1] 1 0 0 3 (by norm_num) (by norm_num)
     (by unfold effectiveZp truncTowardZero qclamp; norm_num)
     (by unfold effectiveZp truncTowardZero qclamp; norm_num) 0⟩

/-- C3: in the per-tensor backward, dX passes dY through exactly at the
elements whose unclamped quantized code round(X/scale + zp) lies in
q_min..q_max and is zero elsewhere, and grad_factor is not applied to dX
(the grad_X output does not depend on grad_factor). -/
theorem claim_C3_backward_dX_mask (n : ℕ) (grad_Y X : Fin n → ℚ)
    (scale zero_point : ℚ) (q_min q_max : ℤ) (X_fq : Fin n → ℚ)
    (grad_factor : ℚ) :
    (∀ i,
      (perTensorBackward grad_Y X scale zero_point q_min q_max X_fq
          grad_factor).grad_X i
        = if (q_min : ℚ) ≤ quantizeElem (X i) scale
              ((effectiveZp zero_point q_min q_max : ℤ) : ℚ) q_min q_max false
            ∧ quantizeElem (X i) scale
              ((effectiveZp zero_point q_min q_max : ℤ) : ℚ) q_min q_max false
              ≤ (q_max : ℚ)
          then grad_Y i else 0)
    ∧ (perTensorBackward grad_Y X scale zero_point q_min q_max X_fq
        grad_factor).grad_X
      = (perTensorBackward grad_Y X scale zero_point q_min q_max X_fq 1).grad_X := by
  exact ⟨fun i => rfl, rfl⟩

/-- Counterexample for C4 as stated: at X = [0], scale = 1, zero_point = 0,
range 0..3, dY = [1], the clamped quantized code of the single element equals
q_min = 0, yet the backward passes the gradient through (dX = [1], not [0]):
the mask in _calculate_X_grad_per_tensor tests the unclamped code, so an
element exactly on the boundary keeps its gradient. -/
theorem claim_C4_counterexample :
    qclamp (quantizeElem 0 1 ((effectiveZp 0 0 3 : ℤ) : ℚ) 0 3 false)
        ((0 : ℤ) : ℚ) ((3 : ℤ) : ℚ) = ((0 : ℤ) : ℚ)
    ∧ (perTensorBackward ![1] ![0] 1 0 0 3 (perTensorForward ![0] 1 0 0 3) 1).grad_X 0
        = 1
    ∧ (1 : ℚ) ≠ 0 := by
  refine ⟨?_, ?_, by norm_num⟩
  · unfold quantizeElem effectiveZp truncTowardZero qclamp roundHalfEven
    norm_num
  · simp [perTensorBackward, calculate_X_grad_per_tensor, quantizeT, quantizeElem,
      effectiveZp, truncTowardZero, qclamp, roundHalfEven]
    norm_num [Int.fract]

/-- C4 corrected: dX is exactly zero at every element whose unclamped
quantized code lies strictly below q_min or strictly above q_max, and equals
the corresponding element of dY at every other element -- in particular at
elements whose unclamped code (and hence clamped code) equals q_min or q_max
exactly, where the claim as stated demanded zero. -/
theorem claim_C4_amended_dX (n : ℕ) (grad_Y X : Fin n → ℚ)
    (scale zero_point : ℚ) (q_min q_max : ℤ) (X_fq : Fin n → ℚ)
    (grad_factor : ℚ) (i : Fin n) :
    (perTensorBackward grad_Y X scale zero_point q_min q_max X_fq
        grad_factor).grad_X i
      = if quantizeElem (X i) scale ((effectiveZp zero_point q_min q_max : ℤ) : ℚ)
            q_min q_max false < (q_min : ℚ)
          ∨ (q_max : ℚ) < quantizeElem (X i) scale
            ((effectiveZp zero_point q_min q_max : ℤ) : ℚ) q_min q_max false
        then 0 else grad_Y i := by
  show (if (q_min : ℚ) ≤ quantizeElem (X i) scale
          ((effectiveZp zero_point q_min q_max : ℤ) : ℚ) q_min q_max false
        ∧ quantizeElem (X i) scale ((effectiveZp zero_point q_min q_max : ℤ) : ℚ)
            q_min q_max false ≤ (q_max : ℚ)
      then grad_Y i else 0) = _
  by_cases h : (q_min : ℚ) ≤ quantizeElem (X i) scale
      ((effectiveZp zero_point q_min q_max : ℤ) : ℚ) q_min q_max false
    ∧ quantizeElem (X i) scale ((effectiveZp zero_point q_min q_max : ℤ) : ℚ)
        q_min q_max false ≤ (q_max : ℚ)
  · rw [if_pos h, if_neg]
    push_neg
    exact h
  · rw [if_neg h, if_pos]
    by_contra hc
    push_neg at hc
    exact h hc

/-- The indicator blend in _calculate_scale_grad collapses to the three-regime
piecewise local gradient whenever q_min < q_max (the q_min and q_max
indicators are then mutually exclusive). -/
theorem calculate_scale_grad_elem_regimes (g x f x_q scale zp : ℚ)
    (q_min q_max : ℤ) (hlt : q_min < q_max) :
    calculate_scale_grad_elem g x f x_q scale zp q_min q_max
      = (if x_q = (q_min : ℚ) then (q_min : ℚ) - zp
         else if x_q = (q_max : ℚ) then (q_max : ℚ) - zp
         else (f - x) / scale) * g := by
  have hne : (q_min : ℚ) ≠ (q_max : ℚ) := by exact_mod_cast ne_of_lt hlt
  unfold calculate_scale_grad_elem indicate_middle_scale indicate_small_scale
    indicate_big_scale
  by_cases h1 : x_q = (q_min : ℚ)
  · have h2 : x_q ≠ (q_max : ℚ) := by rw [h1]; exact hne
    simp only [if_pos h1, if_neg h2]
    ring
  · by_cases h2 : x_q = (q_max : ℚ)
    · simp only [if_neg h1, if_pos h2]
      ring
    · simp only [if_neg h1, if_neg h2]
      ring

/-- The indicator blend in _calculate_zero_point_grad collapses to the
two-regime piecewise local gradient whenever q_min < q_max. -/
theorem calculate_zero_point_grad_elem_regimes (g x f x_q scale zp : ℚ)
    (q_min q_max : ℤ) (hlt : q_min < q_max) :
    calculate_zero_point_grad_elem g x f x_q scale zp q_min q_max
      = (if x_q = (q_min : ℚ) ∨ x_q = (q_max : ℚ) then -scale else 0) * g := by
  have hne : (q_min : ℚ) ≠ (q_max : ℚ) := by exact_mod_cast ne_of_lt hlt
  unfold calculate_zero_point_grad_elem indicate_unsaturate_zp indicate_saturate_zp
  by_cases h1 : x_q = (q_min : ℚ)
  · have h2 : x_q ≠ (q_max : ℚ) := by rw [h1]; exact hne
    simp only [if_pos h1, if_neg h2, if_pos (Or.inl h1 : x_q = (q_min : ℚ) ∨ x_q = (q_max : ℚ))]
    ring
  · by_cases h2 : x_q = (q_max : ℚ)
    · simp only [if_neg h1, if_pos h2, if_pos (Or.inr h2 : x_q = (q_min : ℚ) ∨ x_q = (q_max : ℚ))]
      ring
    · simp only [if_neg h1, if_neg h2,
        if_neg (by push_neg; exact ⟨h1, h2⟩ : ¬(x_q = (q_min : ℚ) ∨ x_q = (q_max : ℚ)))]
      ring

/-- C5: in the per-tensor backward, dScale equals grad_factor times the sum
over all elements of the local contribution times dX, where the local
contribution is q_min - zp at elements whose clamped code equals q_min,
q_max - zp at elements whose clamped code equals q_max, and (Xfq - X)/scale
at strictly interior elements, boundary detection being exact equality on the
clamped code. -/
theorem claim_C5_backward_dscale (n : ℕ) (grad_Y X : Fin n → ℚ)
    (scale zero_point : ℚ) (q_min q_max : ℤ) (X_fq : Fin n → ℚ)
    (grad_factor : ℚ) (hlt : q_min < q_max) :
    (perTensorBackward grad_Y X scale zero_point q_min q_max X_fq
        grad_factor).grad_scale
      = grad_factor * ∑ i,
          (if qclamp (quantizeElem (X i) scale
                ((effectiveZp zero_point q_min q_max : ℤ) : ℚ) q_min q_max false)
                (q_min : ℚ) (q_max : ℚ) = (q_min : ℚ)
            then (q_min : ℚ) - ((effectiveZp zero_point q_min q_max : ℤ) : ℚ)
            else if qclamp (quantizeElem (X i) scale
                ((effectiveZp zero_point q_min q_max : ℤ) : ℚ) q_min q_max false)
                (q_min : ℚ) (q_max : ℚ) = (q_max : ℚ)
            then (q_max : ℚ) - ((effectiveZp zero_point q_min q_max : ℤ) : ℚ)
            else (X_fq i - X i) / scale)
          * (perTensorBackward grad_Y X scale zero_point q_min q_max X_fq
              grad_factor).grad_X i := by
  rw [mul_comm]
  show (∑ i, calculate_scale_grad _ _ _ _ _ _ _ _ i) * grad_factor = _
  congr 1
  refine Finset.sum_congr rfl ?_
  intro i _
  exact calculate_scale_grad_elem_regimes _ _ _ _ _ _ _ _ hlt

/-- Witness for C5 at dY = [1], X = [1/4], scale = 1, zero_point = 0,
range 0..3, X_fq the forward output, grad_factor = 2. -/
theorem claim_C5_witness :
    (0 : ℤ) < 3
    ∧ (perTensorBackward ![1] ![1/4] 1 0 0 3 (perTensorForward ![1/4] 1 0 0 3)
        2).grad_scale
      = 2 * ∑ i : Fin 1,
          (if qclamp (quantizeElem ((![1/4] : Fin 1 → ℚ) i) 1
                ((effectiveZp 0 0 3 : ℤ) : ℚ) 0 3 false)
                ((0 : ℤ) : ℚ) ((3 : ℤ) : ℚ) = ((0 : ℤ) : ℚ)
            then ((0 : ℤ) : ℚ) - ((effectiveZp 0 0 3 : ℤ) : ℚ)
            else if qclamp (quantizeElem ((![1/4] : Fin 1 → ℚ) i) 1
                ((effectiveZp 0 0 3 : ℤ) : ℚ) 0 3 false)
                ((0 : ℤ) : ℚ) ((3 : ℤ) : ℚ) = ((3 : ℤ) : ℚ)
            then ((3 : ℤ) : ℚ) - ((effectiveZp 0 0 3 : ℤ) : ℚ)
            else ((perTensorForward ![1/4] 1 0 0 3) i - (![1/4] : Fin 1 → ℚ) i) / 1)
          * (perTensorBackward ![1] ![1/4] 1 0 0 3
              (perTensorForward ![1/4] 1 0 0 3) 2).grad_X i :=
  ⟨by norm_num,
   claim_C5_backward_dscale 1 ![1] ![1/4] 1 0 0 3 (perTensorForward ![1/4] 1 0 0 3)
     2 (by norm_num)⟩

/-- C6: in the per-tensor backward, dZeroPoint equals grad_factor times the
sum over all elements of the local contribution times dX, where the local
contribution is -scale at every element whose clamped code equals q_min or
q_max and 0 at every strictly interior element. -/
theorem claim_C6_backward_dzero_point (n : ℕ) (grad_Y X : Fin n → ℚ)
    (scale zero_point : ℚ) (q_min q_max : ℤ) (X_fq : Fin n → ℚ)
    (grad_factor : ℚ) (hlt : q_min < q_max) :
    (perTensorBackward grad_Y X scale zero_point q_min q_max X_fq
        grad_factor).grad_zp
      = grad_factor * ∑ i,
          (if qclamp (quantizeElem (X i) scale
                ((effectiveZp zero_point q_min q_max : ℤ) : ℚ) q_min q_max false)
                (q_min : ℚ) (q_max : ℚ) = (q_min : ℚ)
              ∨ qclamp (quantizeElem (X i) scale
                ((effectiveZp zero_point q_min q_max : ℤ) : ℚ) q_min q_max false)
                (q_min : ℚ) (q_max : ℚ) = (q_max : ℚ)
            then -scale else 0)
          * (perTensorBackward grad_Y X scale zero_point q_min q_max X_fq
              grad_factor).grad_X i := by
  rw [mul_comm]
  show (∑ i, calculate_zero_point_grad _ _ _ _ _ _ _ _ i) * grad_factor = _
  congr 1
  refine Finset.sum_congr rfl ?_
  intro i _
  exact calculate_zero_point_grad_elem_regimes _ _ _ _ _ _ _ _ hlt

/-- Witness for C6 at the same concrete backward call as the C5 witness. -/
theorem claim_C6_witness :
    (0 : ℤ) < 3
    ∧ (perTensorBackward ![1] ![1/4] 1 0 0 3 (perTensorForward ![1/4] 1 0 0 3)
        2).grad_zp
      = 2 * ∑ i : Fin 1,
          (if qclamp (quantizeElem ((![1/4] : Fin 1 → ℚ) i) 1
                ((effectiveZp 0 0 3 : ℤ) : ℚ) 0 3 false)
                ((0 : ℤ) : ℚ) ((3 : ℤ) : ℚ) = ((0 : ℤ) : ℚ)
              ∨ qclamp (quantizeElem ((![1/4] : Fin 1 → ℚ) i) 1
                ((effectiveZp 0 0 3 : ℤ) : ℚ) 0 3 false)
                ((0 : ℤ) : ℚ) ((3 : ℤ) : ℚ) = ((3 : ℤ) : ℚ)
            then -(1 : ℚ) else 0)
          * (perTensorBackward ![1] ![1/4] 1 0 0 3
              (perTensorForward ![1/4] 1 0 0 3) 2).grad_X i :=
  ⟨by norm_num,
   claim_C6_backward_dzero_point 1 ![1] ![1/4] 1 0 0 3
     (perTensorForward ![1/4] 1 0 0 3) 2 (by norm_num)⟩

/-- C10: whenever q_min < q_max and the clamped code lies in q_min..q_max,
the three regime indicators of _calculate_scale_grad each take only the
values 0 or 1 and sum to exactly 1, and likewise the saturate/unsaturate
indicator pair of _calculate_zero_point_grad: every element's contribution is
drawn from exactly one regime. -/
theorem claim_C10_indicator_partition (x_q : ℚ) (q_min q_max : ℤ)
    (hlt : q_min < q_max) (h1 : (q_min : ℚ) ≤ x_q) (h2 : x_q ≤ (q_max : ℚ)) :
    (indicate_small_scale x_q q_min = 0 ∨ indicate_small_scale x_q q_min = 1)
    ∧ (indicate_big_scale x_q q_max = 0 ∨ indicate_big_scale x_q q_max = 1)
    ∧ (indicate_middle_scale x_q q_min q_max = 0
        ∨ indicate_middle_scale x_q q_min q_max = 1)
    ∧ indicate_small_scale x_q q_min + indicate_big_scale x_q q_max
        + indicate_middle_scale x_q q_min q_max = 1
    ∧ (indicate_saturate_zp x_q q_min q_max = 0
        ∨ indicate_saturate_zp x_q q_min q_max = 1)
    ∧ (indicate_unsaturate_zp x_q q_min q_max = 0
        ∨ indicate_unsaturate_zp x_q q_min q_max = 1)
    ∧ indicate_saturate_zp x_q q_min q_max
        + indicate_unsaturate_zp x_q q_min q_max = 1 := by
  have hne : (q_min : ℚ) ≠ (q_max : ℚ) := by exact_mod_cast ne_of_lt hlt
  unfold indicate_middle_scale indicate_unsaturate_zp indicate_small_scale
    indicate_big_scale indicate_saturate_zp
  by_cases hs : x_q = (q_min : ℚ)
  · have hb : x_q ≠ (q_max : ℚ) := by rw [hs]; exact hne
    simp only [if_pos hs, if_neg hb]
    norm_num
  · by_cases hb : x_q = (q_max : ℚ)
    · simp only [if_neg hs, if_pos hb]
      norm_num
    · simp only [if_neg hs, if_neg hb]
      norm_num

/-- Witness for C10 at a boundary element: x_q = 0 with range 0..3. -/
theorem claim_C10_witness :
    (0 : ℤ) < 3 ∧ ((0 : ℤ) : ℚ) ≤ 0 ∧ (0 : ℚ) ≤ ((3 : ℤ) : ℚ)
    ∧ (indicate_small_scale 0 0 = 0 ∨ indicate_small_scale 0 0 = 1)
    ∧ (indicate_big_scale 0 3 = 0 ∨ indicate_big_scale 0 3 = 1)
    ∧ (indicate_middle_scale 0 0 3 = 0 ∨ indicate_middle_scale 0 0 3 = 1)
    ∧ indicate_small_scale 0 0 + indicate_big_scale 0 3
        + indicate_middle_scale 0 0 3 = 1
    ∧ (indicate_saturate_zp 0 0 3 = 0 ∨ indicate_saturate_zp 0 0 3 = 1)
    ∧ (indicate_unsaturate_zp 0 0 3 = 0 ∨ indicate_unsaturate_zp 0 0 3 = 1)
    ∧ indicate_saturate_zp 0 0 3 + indicate_unsaturate_zp 0 0 3 = 1 := by
  refine ⟨by norm_num, by norm_num, by norm_num, ?_⟩
  have h := claim_C10_indicator_partition 0 0 3 (by norm_num) (by norm_num)
    (by norm_num)
  exact ⟨h.1, h.2.1, h.2.2.1, h.2.2.2.1, h.2.2.2.2.1, h.2.2.2.2.2.1, h.2.2.2.2.2.2⟩

/-- C7: the per-channel kernel is the per-tensor kernel applied independently
to each channel slice.  In the channel-major normal form (channel axis first,
remaining axes flattened -- the normal form the source reaches through
_permute_to_axis_zero and the reshape(axis_mask) broadcast): the forward
output on slice i equals the per-tensor forward of that slice with its own
scalar scale/zero-point; the backward's dX slice equals the per-tensor dX;
and the backward's dScale/dZeroPoint, reduced by summing over every
non-channel axis, give per channel exactly the per-tensor scalar results. -/
theorem claim_C7_per_channel_refines_per_tensor (c m : ℕ)
    (X grad_Y : Fin c → Fin m → ℚ) (scale zero_point : Fin c → ℚ)
    (q_min q_max : ℤ) (grad_factor : ℚ) :
    (∀ i, perChannelForward X scale zero_point q_min q_max i
        = perTensorForward (X i) (scale i) (zero_point i) q_min q_max)
    ∧ (∀ i, (perChannelBackward grad_Y X scale zero_point q_min q_max
          (perChannelForward X scale zero_point q_min q_max) grad_factor).grad_X i
        = (perTensorBackward (grad_Y i) (X i) (scale i) (zero_point i) q_min q_max
            (perTensorForward (X i) (scale i) (zero_point i) q_min q_max)
            grad_factor).grad_X)
    ∧ (∀ i, (perChannelBackward grad_Y X scale zero_point q_min q_max
          (perChannelForward X scale zero_point q_min q_max) grad_factor).grad_scale i
        = (perTensorBackward (grad_Y i) (X i) (scale i) (zero_point i) q_min q_max
            (perTensorForward (X i) (scale i) (zero_point i) q_min q_max)
            grad_factor).grad_scale)
    ∧ (∀ i, (perChannelBackward grad_Y X scale zero_point q_min q_max
          (perChannelForward X scale zero_point q_min q_max) grad_factor).grad_zp i
        = (perTensorBackward (grad_Y i) (X i) (scale i) (zero_point i) q_min q_max
            (perTensorForward (X i) (scale i) (zero_point i) q_min q_max)
            grad_factor).grad_zp) :=
  ⟨fun i => rfl, fun i => rfl, fun i => rfl, fun i => rfl⟩

end LearnableFakeQuantize
